import Mathlib

/-!
Shallow embedding of pyvista's validation module
(src/pyvista/core/_validation/check.py) and proofs about its checks.

Numeric values flowing through the checks are modelled exactly: a value is
either a finite rational, a signed infinity, or NaN.  All comparisons and
the floor operation used by the checks are exact on this domain, so no
floating-point rounding is involved in any claim below.  Errors are
modelled as an error kind (TypeError / ValueError / RuntimeError) together
with a tag identifying the raise site (the message family).
-/

/-- Kind of Python exception raised by a check. -/
inductive ErrKind where
  | typeError
  | valueError
  | runtimeError
deriving DecidableEq, Repr

/-- Tag identifying which raise site (error message family) produced the error. -/
inductive ErrTag where
  | noneShape        -- `None` is not a valid shape
  | notInstance      -- check_instance failure
  | itemNotInstance  -- check_iterable_items failure
  | nameNotString    -- check_instance: name argument not a string
  | subdtype         -- check_subdtype failure
  | notIntegerLike   -- check_integer, non-strict failure
  | notGreater       -- check_greater_than, strict failure
  | notGreaterEq     -- check_greater_than, non-strict failure
  | notLess          -- check_less_than, strict failure
  | notLessEq        -- check_less_than, non-strict failure
  | badShape         -- check_shape failure
  | notSorted        -- check_sorted failure
  | axisOutOfBounds  -- check_sorted: axis out of bounds
  | badNdim          -- check_ndim failure
  | unreachable      -- RuntimeError line marked unreachable in the source
deriving DecidableEq, Repr

/-- A raised Python error: its kind plus the raise-site tag. -/
structure PyErr where
  kind : ErrKind
  tag : ErrTag
deriving DecidableEq, Repr

instance {ε α : Type} [DecidableEq ε] [DecidableEq α] : DecidableEq (Except ε α) := fun a b =>
  match a, b with
  | .ok x, .ok y =>
      if h : x = y then .isTrue (by rw [h]) else .isFalse (by intro c; cases c; exact h rfl)
  | .error x, .error y =>
      if h : x = y then .isTrue (by rw [h]) else .isFalse (by intro c; cases c; exact h rfl)
  | .ok _, .error _ => .isFalse (by intro c; cases c)
  | .error _, .ok _ => .isFalse (by intro c; cases c)

/-- A numeric array element: finite rational, signed infinity, or NaN.
All values the checks compare or floor are represented exactly. -/
inductive PyFloat where
  | finite (q : ℚ)
  | inf (pos : Bool)
  | nan
deriving DecidableEq, Repr

/-- NumPy elementwise equality: NaN compares unequal to everything,
infinities compare equal only with the same sign. -/
def PyFloat.eq : PyFloat → PyFloat → Bool
  | .finite a, .finite b => decide (a = b)
  | .inf a, .inf b => a == b
  | _, _ => false

/-- NumPy elementwise strict less-than; any comparison with NaN is false. -/
def PyFloat.lt : PyFloat → PyFloat → Bool
  | .finite a, .finite b => decide (a < b)
  | .finite _, .inf b => b
  | .inf a, .finite _ => !a
  | .inf a, .inf b => !a && b
  | _, _ => false

/-- NumPy elementwise less-than-or-equal; any comparison with NaN is false. -/
def PyFloat.le : PyFloat → PyFloat → Bool
  | .finite a, .finite b => decide (a ≤ b)
  | .finite _, .inf b => b
  | .inf a, .finite _ => !a
  | .inf a, .inf b => a == b || (!a && b)
  | _, _ => false

/-- NumPy floor: exact on finite rationals, identity on infinities and NaN. -/
def PyFloat.floor : PyFloat → PyFloat
  | .finite q => .finite (⌊q⌋ : ℚ)
  | .inf b => .inf b
  | .nan => .nan

/-- The dtype of a coerced numeric array: integral or floating. -/
inductive DType where
  | int
  | float
deriving DecidableEq, Repr

/-- A concrete numeric array as produced by the coercion collaborator:
its dtype, its shape, and its element data in row-major order. -/
structure NArr where
  dtype : DType
  shape : List Nat
  data : List PyFloat
deriving DecidableEq, Repr

/-- np.array_equal on two flat element lists of arrays with equal shape:
lengths must agree and every elementwise comparison must hold
(NaN never equals NaN, so any NaN makes this false). -/
def npEqList (xs ys : List PyFloat) : Bool :=
  xs.length == ys.length && (xs.zip ys).all fun p => PyFloat.eq p.1 p.2

/-- check_subdtype specialized to the dtype lattice the checks use:
an integral dtype is a subdtype of np.integer, a floating dtype of
np.floating.  Raises TypeError otherwise. -/
def check_subdtype (d : DType) (baseIsInteger : Bool) : Except PyErr Unit :=
  if (if baseIsInteger then d == DType.int else d == DType.float) then .ok ()
  else .error ⟨.typeError, .subdtype⟩

/-- check_integer: if strict, the dtype must be integral (check_subdtype,
TypeError on failure); otherwise every element must equal its floor
(np.array_equal(array, np.floor(array)), ValueError on failure). -/
def check_integer (arr : NArr) (strict : Bool) : Except PyErr Unit :=
  if strict then
    check_subdtype arr.dtype true
  else if npEqList arr.data (arr.data.map PyFloat.floor) then .ok ()
  else .error ⟨.valueError, .notIntegerLike⟩

/-- check_greater_than: all elements must be > value (strict) or >= value.
The source first validates value as a real scalar via _validate_real_value;
in this model value is always a numeric scalar so that validation succeeds.
The two-branch structure mirrors the if/elif of the source. -/
def check_greater_than (arr : NArr) (value : PyFloat) (strict : Bool) : Except PyErr Unit :=
  if strict && !(arr.data.all fun x => PyFloat.lt value x) then
    .error ⟨.valueError, .notGreater⟩
  else if !(arr.data.all fun x => PyFloat.le value x) then
    .error ⟨.valueError, .notGreaterEq⟩
  else .ok ()

/-- check_less_than: all elements must be < value (strict) or <= value. -/
def check_less_than (arr : NArr) (value : PyFloat) (strict : Bool) : Except PyErr Unit :=
  if strict && !(arr.data.all fun x => PyFloat.lt x value) then
    .error ⟨.valueError, .notLess⟩
  else if !(arr.data.all fun x => PyFloat.le x value) then
    .error ⟨.valueError, .notLessEq⟩
  else .ok ()

/-- The rational 5/2 (the Python value 2.5), written with an explicit
numerator and denominator so that kernel evaluation is possible. -/
def fiveHalves : ℚ := ⟨5, 2, by decide, by decide⟩

/-!
Shape descriptors.  A dimension entry of a shape tuple is a Python object:
a genuine int, a float (Python floats compare equal to ints of the same
value, which matters for the fast path's membership test), or something
non-numeric.  A shape-like input is None, a bare int, a tuple of entries,
or a non-int non-tuple object.
-/

/-- One entry of a Python shape tuple. -/
inductive Dim where
  | int (i : ℤ)
  | float (q : ℚ)
  | other
deriving DecidableEq, Repr

/-- Python equality between a shape-tuple entry and an integer
(floats compare equal to equal-valued ints). -/
def pyEqDimInt : Dim → ℤ → Bool
  | .int i, n => decide (i = n)
  | .float q, n => decide (q = (n : ℚ))
  | .other, _ => false

/-- The source's _is_valid_dim: a genuine int that is at least -1. -/
def Dim.isValidDim : Dim → Bool
  | .int i => decide (-1 ≤ i)
  | _ => false

/-- isinstance(d, int) for a shape-tuple entry. -/
def Dim.isInt : Dim → Bool
  | .int _ => true
  | _ => false

/-- Numeric value of a shape-tuple entry (used when the entry list is cast
to a numeric array on the error path; only reached for int entries). -/
def Dim.toPyFloat : Dim → PyFloat
  | .int i => .finite (i : ℚ)
  | .float q => .finite q
  | .other => .nan

/-- A shape-like argument as passed to check_shape or the shape validator. -/
inductive ShapeInput where
  | noneI
  | intv (i : ℤ)
  | tup (ds : List Dim)
  | other
deriving DecidableEq, Repr

/-- The fixed special-case list of common shapes in _validate_shape_value. -/
def specialShapes : List (List ℤ) := [[], [-1], [1], [3], [2], [1, 3], [-1, 3]]

/-- Python tuple equality between a tuple of entries and a tuple of ints:
equal lengths and pairwise Python equality. -/
def dimListEqInts (ds : List Dim) (t : List ℤ) : Bool :=
  ds.length == t.length && (ds.zip t).all fun p => pyEqDimInt p.1 p.2

/-- Whether a shape-like input hits the special-case membership test
(only tuples can compare equal to the tuples in the list). -/
def hitsSpecial : ShapeInput → Bool
  | .tup ds => specialShapes.any (dimListEqInts ds)
  | _ => false

/-- _validate_shape_value: canonicalize a shape-like input to its tuple
form.  None is rejected with TypeError; the special-case list returns the
input unchanged; a valid int becomes a one-entry tuple; a tuple of valid
entries is returned unchanged; otherwise the public checks are used to
raise an appropriate error (TypeError for a non-int non-tuple input or a
non-int entry, ValueError for an int entry below -1), with the trailing
RuntimeError line unreachable. -/
def _validate_shape_value : ShapeInput → Except PyErr (List Dim)
  | .noneI => .error ⟨.typeError, .noneShape⟩
  | .intv i =>
      if hitsSpecial (.intv i) then .ok []
      else if Dim.isValidDim (.int i) then .ok [.int i]
      else
        match check_greater_than ⟨.int, [1], [.finite (i : ℚ)]⟩ (.finite (-1)) false with
        | .error e => .error e
        | .ok _ => .error ⟨.runtimeError, .unreachable⟩
  | .tup ds =>
      if hitsSpecial (.tup ds) then .ok ds
      else if ds.all Dim.isValidDim then .ok ds
      else if !(ds.all Dim.isInt) then .error ⟨.typeError, .itemNotInstance⟩
      else
        match check_greater_than ⟨.int, [ds.length], ds.map Dim.toPyFloat⟩ (.finite (-1)) false with
        | .error e => .error e
        | .ok _ => .error ⟨.runtimeError, .unreachable⟩
  | .other => .error ⟨.typeError, .notInstance⟩

/-- The general validation path of _validate_shape_value: identical to the
source except that the special-case fast path is removed.  This is the
comparison point for the refinement claim about the fast path. -/
def _validate_shape_general : ShapeInput → Except PyErr (List Dim)
  | .noneI => .error ⟨.typeError, .noneShape⟩
  | .intv i =>
      if Dim.isValidDim (.int i) then .ok [.int i]
      else
        match check_greater_than ⟨.int, [1], [.finite (i : ℚ)]⟩ (.finite (-1)) false with
        | .error e => .error e
        | .ok _ => .error ⟨.runtimeError, .unreachable⟩
  | .tup ds =>
      if ds.all Dim.isValidDim then .ok ds
      else if !(ds.all Dim.isInt) then .error ⟨.typeError, .itemNotInstance⟩
      else
        match check_greater_than ⟨.int, [ds.length], ds.map Dim.toPyFloat⟩ (.finite (-1)) false with
        | .error e => .error e
        | .ok _ => .error ⟨.runtimeError, .unreachable⟩
  | .other => .error ⟨.typeError, .notInstance⟩

/-- The shape argument of check_shape: a single shape-like value or a list
of allowable shape-like values. -/
inductive ShapeDescr where
  | single (s : ShapeInput)
  | list (ss : List ShapeInput)
deriving DecidableEq, Repr

/-- The candidate list check_shape iterates over
(a non-list argument is wrapped into a one-element list). -/
def ShapeDescr.candidates : ShapeDescr → List ShapeInput
  | .single s => [s]
  | .list ss => ss

/-- _shape_is_allowed: the actual shape and the allowed shape must have
equal length and pairwise either compare equal (Python equality) or the
allowed entry compares equal to -1. -/
def _shape_is_allowed (a : List Nat) (b : List Dim) : Bool :=
  a.length == b.length &&
    (a.zip b).all fun p => pyEqDimInt p.2 (p.1 : ℤ) || pyEqDimInt p.2 (-1)

/-- The loop body of check_shape: validate each candidate in order
(errors propagate), return on the first match, and raise ValueError
when no candidate matches. -/
def check_shape_loop (a : List Nat) : List ShapeInput → Except PyErr Unit
  | [] => .error ⟨.valueError, .badShape⟩
  | s :: rest =>
      match _validate_shape_value s with
      | .error e => .error e
      | .ok v => if _shape_is_allowed a v then .ok () else check_shape_loop a rest

/-- check_shape: the array's actual shape must match one of the candidate
shapes after canonicalization. -/
def check_shape (a : List Nat) (d : ShapeDescr) : Except PyErr Unit :=
  check_shape_loop a d.candidates

/-!
Sortedness.  The source builds two views of the array offset by one along
the chosen axis and compares them elementwise.  On the row-major flat data
this compares positions p and p + stride whenever the axis coordinate of p
is not the last one, where stride is the product of the dimensions after
the axis.
-/

/-- The comparison selected by the ascending and strict flags
(<= / < / >= / > between consecutive elements). -/
def cmpOf (ascending strict : Bool) : PyFloat → PyFloat → Bool :=
  if ascending && !strict then PyFloat.le
  else if ascending && strict then PyFloat.lt
  else if !ascending && !strict then fun x y => PyFloat.le y x
  else fun x y => PyFloat.lt y x

/-- Elementwise comparison of the two offset views along axis j of a
row-major array: for every flat position whose axis-j coordinate is not
the last, the element must compare against the element one step further
along axis j. -/
def sortedAlong (shape : List Nat) (data : List PyFloat) (j : Nat)
    (cmp : PyFloat → PyFloat → Bool) : Bool :=
  let dj := shape.getD j 1
  let stride := (shape.drop (j + 1)).foldl (fun a b => a * b) 1
  (List.range data.length).all fun p =>
    if (p / stride) % dj + 1 < dj then
      match data.get? (p + stride) with
      | some y => cmp (data.getD p PyFloat.nan) y
      | none => true
    else true

/-- A Python number passed as the axis argument: an int or a float. -/
inductive PyNum where
  | int (i : ℤ)
  | float (q : ℚ)
deriving DecidableEq, Repr

/-- Python equality between a number and an integer. -/
def pyNumEqInt : PyNum → ℤ → Bool
  | .int i, n => decide (i = n)
  | .float q, n => decide (q = (n : ℚ))

/-- The dtype a bare Python number coerces to. -/
def PyNum.dtype : PyNum → DType
  | .int _ => .int
  | .float _ => .float

/-- The numeric value of a Python number. -/
def PyNum.toPyFloat : PyNum → PyFloat
  | .int i => .finite (i : ℚ)
  | .float q => .finite q

/-- int(axis): truncation, only applied after the whole-number check. -/
def PyNum.toInt : PyNum → ℤ
  | .int i => i
  | .float q => ⌊q⌋

/-- The axis-validation prefix of check_sorted for an axis that is not
-1 and not None: check_number passes (the axis is a number by typing),
check_integer must accept it, and then the axis must lie in
[-ndim, ndim - 1].  The bound test inlines the check_range call the
source makes on the scalar axis with range [-ndim, ndim - 1]; the lemma
check_range_axis_bound below shows the inlining agrees with check_range. -/
def axisValidate (ndim : Nat) (v : PyNum) : Except PyErr Unit :=
  match check_integer ⟨v.dtype, [], [v.toPyFloat]⟩ false with
  | .error e => .error e
  | .ok _ =>
      if v.toInt < -(ndim : ℤ) || v.toInt > (ndim : ℤ) - 1 then
        .error ⟨.valueError, .axisOutOfBounds⟩
      else .ok ()

/-- check_sorted: scalars are trivially sorted; an axis other than -1 or
None is validated first; axis None flattens the array; then consecutive
elements along the axis are compared with the comparison selected by
ascending and strict, raising ValueError when some pair violates it. -/
def check_sorted (arr : NArr) (ascending strict : Bool) (axis : Option PyNum) :
    Except PyErr Unit :=
  let ndim := arr.shape.length
  if ndim = 0 then .ok ()
  else
    let va : Except PyErr Unit :=
      match axis with
      | none => .ok ()
      | some v => if pyNumEqInt v (-1) then .ok () else axisValidate ndim v
    match va with
    | .error e => .error e
    | .ok _ =>
        match axis with
        | none =>
            if sortedAlong [arr.data.length] arr.data 0 (cmpOf ascending strict) then .ok ()
            else .error ⟨.valueError, .notSorted⟩
        | some v =>
            let i := v.toInt
            let j := (if i < 0 then (ndim : ℤ) + i else i).toNat
            if sortedAlong arr.shape arr.data j (cmpOf ascending strict) then .ok ()
            else .error ⟨.valueError, .notSorted⟩

/-- check_range: the range argument is first validated to have shape (2,)
via check_shape and to be sorted ascending via check_sorted (with their
default arguments); only then is the array compared against the two
endpoints via check_greater_than and check_less_than. -/
def check_range (arr rng : NArr) (strict_lower strict_upper : Bool) :
    Except PyErr Unit :=
  match check_shape rng.shape (.single (.intv 2)) with
  | .error e => .error e
  | .ok _ =>
  match check_sorted rng true false (some (.int (-1))) with
  | .error e => .error e
  | .ok _ =>
  match check_greater_than arr (rng.data.getD 0 .nan) strict_lower with
  | .error e => .error e
  | .ok _ => check_less_than arr (rng.data.getD 1 .nan) strict_upper

/-!
check_ndim.  The ndim argument is a bare number, a vector of numbers, or
a rank-2 nested list; np.atleast_1d flattens it to its entry list for the
membership test.  The membership test uses numeric equality (a float
entry equal in value to the array's rank counts as a match).  Only when
no entry matches does the source validate the ndim argument itself: the
recursive check_ndim(ndim, [0, 1]) call rejects rank-2 input with
ValueError, then check_integer(..., strict=True) rejects a non-integral
dtype with TypeError, and finally the rank-mismatch ValueError is raised.
-/

/-- The ndim argument of check_ndim. -/
inductive NdimArg where
  | scalar (v : PyNum)
  | vec (vs : List PyNum)
  | mat (m : List (List PyNum))
deriving DecidableEq, Repr

/-- The flat entry list of an ndim argument (np.atleast_1d + flattening). -/
def NdimArg.entries : NdimArg → List PyNum
  | .scalar v => [v]
  | .vec vs => vs
  | .mat m => m.flatten

/-- The rank of the ndim argument itself once cast to an array. -/
def NdimArg.rank : NdimArg → Nat
  | .scalar _ => 0
  | .vec _ => 1
  | .mat _ => 2

/-- NumPy dtype promotion for a list of Python numbers: an integral dtype
only when the list is nonempty and every entry is an int (an empty list
defaults to a floating dtype). -/
def promoteDtype (vs : List PyNum) : DType :=
  if !vs.isEmpty && vs.all (fun v => v.dtype == DType.int) then .int else .float

/-- check_ndim: the array's rank (here passed directly as arrayNdim) must
compare equal to some entry of ndim; the ndim argument is validated only
on the failure path, mirroring the source. -/
def check_ndim (arrayNdim : Nat) (nd : NdimArg) : Except PyErr Unit :=
  if nd.entries.any (fun v => pyNumEqInt v (arrayNdim : ℤ)) then .ok ()
  else if nd.rank ≥ 2 then .error ⟨.valueError, .badNdim⟩
  else
    match check_integer ⟨promoteDtype nd.entries, [nd.entries.length],
        nd.entries.map PyNum.toPyFloat⟩ true with
    | .error e => .error e
    | .ok _ => .error ⟨.valueError, .badNdim⟩

/-!
check_instance.  Python types are modelled as identifiers together with
an arbitrary is-subclass relation (isinstance tests the object's runtime
type against a candidate through that relation).  The classinfo argument
is a single type, a tuple of types, or a typing.Union hint whose
arguments are extracted first.
-/

/-- The classinfo argument of check_instance. -/
inductive ClassInfo where
  | single (t : Nat)
  | tup (ts : List Nat)
  | unionHint (ts : List Nat)
deriving DecidableEq, Repr

/-- The concrete candidate types denoted by a classinfo argument. -/
def ClassInfo.cands : ClassInfo → List Nat
  | .single t => [t]
  | .tup ts => ts
  | .unionHint ts => ts

/-- check_instance: name must be a string (TypeError otherwise); a Union
hint is unwrapped to a tuple of its argument types; with allow_subclass
the object must be an instance of some candidate, and without it the
object's exact runtime type must equal some candidate. -/
def check_instance (sub : Nat → Nat → Bool) (objTy : Nat) (classinfo : ClassInfo)
    (allow_subclass : Bool) (nameIsStr : Bool) : Except PyErr Unit :=
  if !nameIsStr then .error ⟨.typeError, .nameNotString⟩
  else
    let ci : ClassInfo := match classinfo with
      | .unionHint ts => .tup ts
      | c => c
    let is_instance := ci.cands.any fun t => sub objTy t
    if allow_subclass && !is_instance then .error ⟨.typeError, .notInstance⟩
    else if !allow_subclass then
      match ci with
      | .tup ts => if !(ts.contains objTy) then .error ⟨.typeError, .notInstance⟩ else .ok ()
      | .single t => if objTy != t then .error ⟨.typeError, .notInstance⟩ else .ok ()
      | .unionHint _ => .ok ()
    else .ok ()

/-- A tiny concrete corner of Python's class hierarchy: int, str and bool,
with bool a strict subclass of int and the relation reflexive. -/
def pyTyInt : Nat := 0

/-- Type identifier for str. -/
def pyTyStr : Nat := 1

/-- Type identifier for bool. -/
def pyTyBool : Nat := 2

/-- The is-subclass relation on the tiny concrete hierarchy. -/
def pyIsSubclass (a b : Nat) : Bool :=
  a == b || (a == pyTyBool && b == pyTyInt)

/-- The kind of error produced by a check result, if any. -/
def errKindOf : Except PyErr Unit → Option ErrKind
  | .ok _ => none
  | .error e => some e.kind

/-!
Helper lemmas.
-/

lemma sortedAlong_one_dim_eval (data : List PyFloat) (cmp : PyFloat → PyFloat → Bool) :
    sortedAlong [data.length] data 0 cmp =
      ((List.range data.length).all fun p =>
        if p % data.length + 1 < data.length then
          match data.get? (p + 1) with
          | some y => cmp (data.getD p PyFloat.nan) y
          | none => true
        else true) := by
  unfold sortedAlong
  simp [Nat.div_one]

lemma sortedAlong_one_dim (data : List PyFloat) (cmp : PyFloat → PyFloat → Bool) :
    (sortedAlong [data.length] data 0 cmp = true) ↔
      List.Chain' (fun x y => cmp x y = true) data := by
  rw [sortedAlong_one_dim_eval, List.chain'_iff_get, List.all_eq_true]
  constructor
  · intro h i hi
    have hi1 : i + 1 < data.length := by omega
    have hp := h i (List.mem_range.mpr (by omega))
    rw [Nat.mod_eq_of_lt (by omega), if_pos hi1, List.get?_eq_get hi1] at hp
    rwa [List.getD_eq_get?, List.get?_eq_get (by omega : i < data.length)] at hp
  · intro h p hp
    have hplt : p < data.length := List.mem_range.mp hp
    rw [Nat.mod_eq_of_lt hplt]
    by_cases hc : p + 1 < data.length
    · rw [if_pos hc, List.get?_eq_get hc]
      have := h p (by omega)
      rwa [List.getD_eq_get?, List.get?_eq_get hplt]
    · rw [if_neg hc]

lemma check_sorted_one_dim_eq (dt : DType) (data : List PyFloat) (asc st : Bool) :
    check_sorted ⟨dt, [data.length], data⟩ asc st (some (.int (-1))) =
      (if sortedAlong [data.length] data 0 (cmpOf asc st) then .ok ()
       else .error ⟨.valueError, .notSorted⟩) := by
  simp only [check_sorted, pyNumEqInt]
  norm_num [PyNum.toInt]

lemma check_sorted_one_dim_iff (dt : DType) (data : List PyFloat) (asc st : Bool) :
    (check_sorted ⟨dt, [data.length], data⟩ asc st (some (.int (-1))) = .ok ()) ↔
      List.Chain' (fun x y => cmpOf asc st x y = true) data := by
  rw [check_sorted_one_dim_eq, ← sortedAlong_one_dim data (cmpOf asc st)]
  by_cases h : sortedAlong [data.length] data 0 (cmpOf asc st) = true
  · simp [h]
  · simp only [h, if_neg, Bool.false_eq_true, if_false]
    constructor
    · intro hc; cases hc
    · intro hc; exact absurd hc (by simp [h])

lemma check_sorted_one_dim_cases (dt : DType) (data : List PyFloat) (asc st : Bool) :
    check_sorted ⟨dt, [data.length], data⟩ asc st (some (.int (-1))) = .ok () ∨
    check_sorted ⟨dt, [data.length], data⟩ asc st (some (.int (-1)))
      = .error ⟨.valueError, .notSorted⟩ := by
  rw [check_sorted_one_dim_eq]
  by_cases h : sortedAlong [data.length] data 0 (cmpOf asc st) = true
  · left; simp [h]
  · right; simp [h]

lemma shape_allowed_iff (a : List Nat) (t : List ℤ) :
    (_shape_is_allowed a (t.map Dim.int) = true) ↔
      List.Forall₂ (fun (x : Nat) (y : ℤ) => y = (x : ℤ) ∨ y = -1) a t := by
  induction a generalizing t with
  | nil =>
    cases t with
    | nil => simp [_shape_is_allowed]
    | cons y t => simp [_shape_is_allowed]
  | cons x a ih =>
    cases t with
    | nil => simp [_shape_is_allowed]
    | cons y t =>
      rw [List.forall₂_cons, ← ih]
      simp only [_shape_is_allowed, List.map_cons, List.length_cons, List.length_map,
        List.zip_cons_cons, List.all_cons, Bool.and_eq_true, beq_iff_eq, Nat.succ_inj,
        pyEqDimInt, Bool.or_eq_true, decide_eq_true_eq]
      tauto

lemma check_shape_loop_char (a : List Nat) (ss : List ShapeInput)
    (hv : ∀ s ∈ ss, ∃ v, _validate_shape_value s = .ok v) :
    ((check_shape_loop a ss = .ok ()) ↔
      ∃ s ∈ ss, ∃ v, _validate_shape_value s = .ok v ∧ _shape_is_allowed a v = true) ∧
    ((¬ ∃ s ∈ ss, ∃ v, _validate_shape_value s = .ok v ∧ _shape_is_allowed a v = true) →
      check_shape_loop a ss = .error ⟨.valueError, .badShape⟩) := by
  induction ss with
  | nil => simp [check_shape_loop]
  | cons s rest ih =>
    obtain ⟨v, hvs⟩ := hv s (by simp)
    obtain ⟨ih1, ih2⟩ := ih (fun s hs => hv s (by simp [hs]))
    by_cases hall : _shape_is_allowed a v = true
    · constructor
      · constructor
        · intro _; exact ⟨s, by simp, v, hvs, hall⟩
        · intro _; simp [check_shape_loop, hvs, hall]
      · intro hno
        exact absurd ⟨s, by simp, v, hvs, hall⟩ hno
    · have hred : check_shape_loop a (s :: rest) = check_shape_loop a rest := by
        simp [check_shape_loop, hvs, hall]
      constructor
      · rw [hred, ih1]
        constructor
        · rintro ⟨s', hs', v', hv', hall'⟩
          exact ⟨s', by simp [hs'], v', hv', hall'⟩
        · rintro ⟨s', hs', v', hv', hall'⟩
          rcases List.mem_cons.mp hs' with rfl | hs'
          · rw [hvs] at hv'; cases hv'
            exact absurd hall' hall
          · exact ⟨s', hs', v', hv', hall'⟩
      · intro hno
        rw [hred]
        apply ih2
        rintro ⟨s', hs', v', hv', hall'⟩
        exact hno ⟨s', by simp [hs'], v', hv', hall'⟩

lemma check_integer_int_scalar (i : ℤ) :
    check_integer ⟨.int, [], [.finite (i : ℚ)]⟩ false = .ok () := by
  simp [check_integer, npEqList, PyFloat.floor, PyFloat.eq, Int.floor_intCast]

lemma npEqList_map_floor (data : List PyFloat) :
    npEqList data (data.map PyFloat.floor) =
      data.all fun x => PyFloat.eq x x.floor := by
  induction data with
  | nil => rfl
  | cons x xs ih =>
    simp only [npEqList, List.map_cons, List.length_cons, List.length_map,
      List.zip_cons_cons, List.all_cons, beq_self_eq_true, Bool.true_and] at ih ⊢
    rw [← ih]

lemma check_integer_nan (arr : NArr) (h : PyFloat.nan ∈ arr.data) :
    check_integer arr false = .error ⟨.valueError, .notIntegerLike⟩ := by
  have hall : (arr.data.all fun x => PyFloat.eq x x.floor) = false := by
    by_contra hc
    have htrue : (arr.data.all fun x => PyFloat.eq x x.floor) = true := by
      revert hc; cases arr.data.all fun x => PyFloat.eq x x.floor <;> simp
    have := List.all_eq_true.mp htrue PyFloat.nan h
    simp [PyFloat.floor, PyFloat.eq] at this
  simp [check_integer, npEqList_map_floor, hall]

lemma axisValidate_int (ndim : Nat) (i : ℤ) :
    axisValidate ndim (.int i) =
      (if i < -(ndim : ℤ) ∨ (ndim : ℤ) - 1 < i then .error ⟨.valueError, .axisOutOfBounds⟩
       else .ok ()) := by
  simp only [axisValidate, PyNum.dtype, PyNum.toPyFloat, check_integer_int_scalar, PyNum.toInt]
  by_cases h : i < -(ndim : ℤ) ∨ (ndim : ℤ) - 1 < i
  · rw [if_pos h]
    rcases h with h | h <;> simp [h]
  · rw [if_neg h]
    push_neg at h
    simp [not_lt.mpr h.1, not_lt.mpr h.2]

lemma check_sorted_int_axis_oob (arr : NArr) (i : ℤ) (asc st : Bool)
    (hnd : arr.shape.length ≠ 0)
    (hout : i < -(arr.shape.length : ℤ) ∨ (arr.shape.length : ℤ) - 1 < i) :
    check_sorted arr asc st (some (.int i)) = .error ⟨.valueError, .axisOutOfBounds⟩ := by
  have hne : i ≠ -1 := by
    rcases hout with h | h <;> intro rfl <;> omega
  simp only [check_sorted, pyNumEqInt]
  rw [if_neg hnd, if_neg (by simpa using hne)]
  rw [axisValidate_int, if_pos hout]

lemma check_sorted_int_axis_inb (arr : NArr) (i : ℤ) (asc st : Bool)
    (hnd : arr.shape.length ≠ 0)
    (hin : -(arr.shape.length : ℤ) ≤ i ∧ i ≤ (arr.shape.length : ℤ) - 1) :
    check_sorted arr asc st (some (.int i)) = .ok () ∨
    check_sorted arr asc st (some (.int i)) = .error ⟨.valueError, .notSorted⟩ := by
  simp only [check_sorted, pyNumEqInt]
  rw [if_neg hnd]
  by_cases hne : i = -1
  · rw [if_pos (by simp [hne])]
    by_cases hs : sortedAlong arr.shape arr.data
        ((if (PyNum.int i).toInt < 0 then (arr.shape.length : ℤ) + (PyNum.int i).toInt
          else (PyNum.int i).toInt)).toNat (cmpOf asc st) = true
    · left; simp [hs]
    · right; simp [hs]
  · rw [if_neg (by simpa using hne)]
    rw [axisValidate_int, if_neg (by omega)]
    by_cases hs : sortedAlong arr.shape arr.data
        ((if (PyNum.int i).toInt < 0 then (arr.shape.length : ℤ) + (PyNum.int i).toInt
          else (PyNum.int i).toInt)).toNat (cmpOf asc st) = true
    · left; simp [hs]
    · right; simp [hs]

lemma specials_nonneg : ∀ t ∈ specialShapes, ∀ y ∈ t, -1 ≤ y := by decide

lemma dimListEqInts_valid (ds : List Dim) (t : List ℤ)
    (heq : dimListEqInts ds t = true) (hint : ds.all Dim.isInt = true)
    (hge : ∀ y ∈ t, -1 ≤ y) : ds.all Dim.isValidDim = true := by
  induction ds generalizing t with
  | nil => rfl
  | cons d ds ih =>
    cases t with
    | nil => simp [dimListEqInts] at heq
    | cons y t =>
      simp only [dimListEqInts, List.length_cons, List.zip_cons_cons, List.all_cons,
        Bool.and_eq_true, beq_iff_eq, Nat.succ_inj] at heq
      obtain ⟨hlen, hd, hrest⟩ := heq
      simp only [List.all_cons, Bool.and_eq_true] at hint ⊢
      constructor
      · cases d with
        | int j =>
          simp only [pyEqDimInt, decide_eq_true_eq] at hd
          simp only [Dim.isValidDim, hd, decide_eq_true_eq]
          exact hge y (by simp)
        | float q => simpa [Dim.isInt] using hint.1
        | other => simpa [Dim.isInt] using hint.1
      · exact ih t (by simp [dimListEqInts, hlen, hrest]) hint.2
          (fun z hz => hge z (by simp [hz]))

lemma hitsSpecial_tup (ds : List Dim) (h : hitsSpecial (.tup ds) = true) :
    ∃ t ∈ specialShapes, dimListEqInts ds t = true := by
  simpa [hitsSpecial, List.any_eq_true] using h

/-!
Claim theorems.
-/

/-- C2 (counterexample): the Python tuple (1.0, 3) compares equal to the
special-cased shape (1, 3), so it hits the fast path of
_validate_shape_value and is returned unchanged, while the general
validation path rejects its float entry with a TypeError from
check_iterable_items.  The two paths therefore disagree on an input that
hits the special-case list. -/
theorem C2_fast_path_diverges :
    hitsSpecial (.tup [.float 1, .int 3]) = true
  ∧ _validate_shape_value (.tup [.float 1, .int 3]) = .ok [.float 1, .int 3]
  ∧ _validate_shape_general (.tup [.float 1, .int 3])
      = .error ⟨.typeError, .itemNotInstance⟩ :=
  ⟨by decide, by decide, by decide⟩

/-- C2 (amended): restricted to inputs that hit the special-case list and
whose entries are genuine Python ints, the fast path of
_validate_shape_value produces exactly the same result as the general
validation path; moreover only tuples can hit the special-case list. -/
theorem C2_fast_path_agrees_on_int_entries :
    (∀ ds : List Dim, hitsSpecial (.tup ds) = true → ds.all Dim.isInt = true →
      _validate_shape_value (.tup ds) = _validate_shape_general (.tup ds))
  ∧ (∀ s : ShapeInput, hitsSpecial s = true → ∃ ds, s = .tup ds) := by
  constructor
  · intro ds hhit hint
    obtain ⟨t, ht, heq⟩ := hitsSpecial_tup ds hhit
    have hvalid := dimListEqInts_valid ds t heq hint (specials_nonneg t ht)
    simp [_validate_shape_value, _validate_shape_general, hhit, hvalid]
  · intro s hs
    cases s with
    | tup ds => exact ⟨ds, rfl⟩
    | noneI => simp [hitsSpecial] at hs
    | intv i => simp [hitsSpecial] at hs
    | other => simp [hitsSpecial] at hs

/-- C2 witness: the two paths agree on the special-cased all-int shape (1, 3). -/
theorem C2_fast_path_agrees_witness :
    _validate_shape_value (.tup [.int 1, .int 3])
      = _validate_shape_general (.tup [.int 1, .int 3]) :=
  C2_fast_path_agrees_on_int_entries.1 [.int 1, .int 3] (by decide) (by decide)

/-- C4 (counterexample): check_integer(2.5, strict=True) raises TypeError,
not ValueError as the claim states: strict mode delegates to
check_subdtype, which raises TypeError for the non-integral dtype. -/
theorem C4_strict_raises_type_error :
    errKindOf (check_integer ⟨.float, [], [.finite fiveHalves]⟩ true)
      = some ErrKind.typeError
  ∧ errKindOf (check_integer ⟨.float, [], [.finite fiveHalves]⟩ true)
      ≠ some ErrKind.valueError :=
  ⟨by decide, by decide⟩

/-- C4 (amended): check_integer(2.0) succeeds; check_integer(2.5) raises
ValueError; and check_integer(x, strict=True) on any float-dtype array
raises TypeError because strict mode decides purely based on the dtype,
regardless of whether the element values are whole numbers. -/
theorem C4_integer_like_values :
    check_integer ⟨.float, [], [.finite 2]⟩ false = .ok ()
  ∧ check_integer ⟨.float, [], [.finite fiveHalves]⟩ false
      = .error ⟨.valueError, .notIntegerLike⟩
  ∧ ∀ (sh : List Nat) (data : List PyFloat),
      check_integer ⟨.float, sh, data⟩ true = .error ⟨.typeError, .subdtype⟩ :=
  ⟨by decide, by decide, fun _ _ => rfl⟩

/-- C5: check_range validates its rng argument (shape (2,) via
check_shape, ascending order via check_sorted) before comparing the array
against the endpoints: a non-ascending rng [10, 0] raises ValueError for
every array, as does a wrongly shaped rng; and with rng [0, 10] the value
5 passes while -1 raises ValueError. -/
theorem C5_check_range_validates_rng :
    (∀ (arr : NArr) (sl su : Bool),
        check_range arr ⟨.int, [2], [.finite 10, .finite 0]⟩ sl su
          = .error ⟨.valueError, .notSorted⟩)
  ∧ (∀ (arr : NArr) (sl su : Bool),
        check_range arr ⟨.int, [3], [.finite 0, .finite 1, .finite 2]⟩ sl su
          = .error ⟨.valueError, .badShape⟩)
  ∧ check_range ⟨.int, [], [.finite 5]⟩ ⟨.int, [2], [.finite 0, .finite 10]⟩ false false
      = .ok ()
  ∧ check_range ⟨.int, [], [.finite (-1)]⟩ ⟨.int, [2], [.finite 0, .finite 10]⟩ false false
      = .error ⟨.valueError, .notGreaterEq⟩ :=
  ⟨fun _ _ _ => rfl, fun _ _ _ => rfl, by decide, by decide⟩

/-- C10: check_integer with strict=False accepts arrays containing
infinite values (an infinity equals its own floor under NumPy equality),
while any NaN element makes it raise ValueError, so the non-strict
integer check does not imply finiteness. -/
theorem C10_nonstrict_accepts_infinity :
    check_integer ⟨.float, [1], [.inf true]⟩ false = .ok ()
  ∧ check_integer ⟨.float, [1], [.inf false]⟩ false = .ok ()
  ∧ ∀ arr : NArr, PyFloat.nan ∈ arr.data →
      check_integer arr false = .error ⟨.valueError, .notIntegerLike⟩ :=
  ⟨by decide, by decide, fun arr h => check_integer_nan arr h⟩

/-- C10 witness: a one-element NaN array is rejected by the non-strict check. -/
theorem C10_nonstrict_accepts_infinity_witness :
    check_integer ⟨.float, [1], [.nan]⟩ false = .error ⟨.valueError, .notIntegerLike⟩ :=
  C10_nonstrict_accepts_infinity.2.2 ⟨.float, [1], [.nan]⟩ (by decide)

/-- C3 (counterexample): check_ndim succeeds on a malformed ndim argument
whenever the array's rank happens to match it numerically: the float 1.0
matches rank 1 (so no error is raised despite the non-integral entry),
while the same ndim argument is rejected with TypeError by the
validation done on the mismatch path (rank 2).  The claim that check_ndim
validates ndim regardless of a rank match is therefore false. -/
theorem C3_no_validation_on_match :
    check_ndim 1 (.scalar (.float 1)) = .ok ()
  ∧ check_ndim 2 (.scalar (.float 1)) = .error ⟨.typeError, .subdtype⟩ :=
  ⟨by decide, by decide⟩

/-- C3 (amended): check_ndim validates its ndim argument only when the
array's rank matches no entry of ndim.  On a match it succeeds without
any validation; on a mismatch it raises ValueError when ndim itself has
rank 2 or more, TypeError when ndim (of rank at most 1) has a
non-integral dtype (some float entry, or an empty entry list which
defaults to a floating dtype), and the rank-mismatch ValueError when ndim
is well-formed. -/
theorem C3_ndim_validated_only_on_mismatch (aN : Nat) (nd : NdimArg) :
    ((∃ v ∈ nd.entries, pyNumEqInt v (aN : ℤ) = true) → check_ndim aN nd = .ok ())
  ∧ ((∀ v ∈ nd.entries, pyNumEqInt v (aN : ℤ) = false) → 2 ≤ nd.rank →
      check_ndim aN nd = .error ⟨.valueError, .badNdim⟩)
  ∧ ((∀ v ∈ nd.entries, pyNumEqInt v (aN : ℤ) = false) → nd.rank ≤ 1 →
      nd.entries ≠ [] → (∀ v ∈ nd.entries, v.dtype = DType.int) →
      check_ndim aN nd = .error ⟨.valueError, .badNdim⟩)
  ∧ ((∀ v ∈ nd.entries, pyNumEqInt v (aN : ℤ) = false) → nd.rank ≤ 1 →
      (nd.entries = [] ∨ ∃ v ∈ nd.entries, v.dtype = DType.float) →
      check_ndim aN nd = .error ⟨.typeError, .subdtype⟩) := by
  have hany : ∀ (_ : ∀ v ∈ nd.entries, pyNumEqInt v (aN : ℤ) = false),
      (nd.entries.any fun v => pyNumEqInt v (aN : ℤ)) = false := by
    intro h
    rw [List.any_eq_false]
    intro v hv
    simp [h v hv]
  refine ⟨?_, ?_, ?_, ?_⟩
  · rintro ⟨v, hv, hpq⟩
    have : (nd.entries.any fun v => pyNumEqInt v (aN : ℤ)) = true :=
      List.any_eq_true.mpr ⟨v, hv, hpq⟩
    simp [check_ndim, this]
  · intro h hr
    simp [check_ndim, hany h, hr]
  · intro h hr hne hint
    have hpd : promoteDtype nd.entries = .int := by
      have h1 : nd.entries.isEmpty = false := by
        simpa [List.isEmpty_iff] using hne
      have h2 : (nd.entries.all fun v => v.dtype == DType.int) = true := by
        rw [List.all_eq_true]
        intro v hv
        simp [hint v hv]
      simp [promoteDtype, h1, h2]
    have hrk : ¬ (2 ≤ nd.rank) := by omega
    simp [check_ndim, hany h, hrk, hpd, check_integer, check_subdtype]
  · intro h hr hfl
    have hpd : promoteDtype nd.entries = .float := by
      rcases hfl with he | ⟨v, hv, hvf⟩
      · simp [promoteDtype, he]
      · have h2 : (nd.entries.all fun v => v.dtype == DType.int) = false := by
          rw [List.all_eq_false]
          exact ⟨v, hv, by simp [hvf]⟩
        simp [promoteDtype, h2]
    have hrk : ¬ (2 ≤ nd.rank) := by omega
    simp [check_ndim, hany h, hrk, hpd, check_integer, check_subdtype]

/-- C3 witness: a rank mismatch against a well-formed ndim raises the
rank-mismatch ValueError. -/
theorem C3_ndim_validated_only_on_mismatch_witness :
    check_ndim 2 (.scalar (.int 1)) = .error ⟨.valueError, .badNdim⟩ :=
  (C3_ndim_validated_only_on_mismatch 2 (.scalar (.int 1))).2.2.1
    (by decide) (by decide) (by decide) (by decide)

/-- C8: with allow_subclass=True check_instance succeeds exactly when the
object is an instance of some candidate type (a Union hint contributing
its argument types), and with allow_subclass=False exactly when the
object's exact runtime type equals one of the candidates, rejecting
everything else with TypeError; concretely an int passes against
(int, str) both ways, while a bool (a proper subclass of int) passes only
when subclasses are allowed. -/
theorem C8_check_instance :
    (∀ (sub : Nat → Nat → Bool) (objTy : Nat) (ci : ClassInfo),
      ((check_instance sub objTy ci true true = .ok ()) ↔
        ∃ t ∈ ci.cands, sub objTy t = true)
    ∧ ((check_instance sub objTy ci false true = .ok ()) ↔ objTy ∈ ci.cands)
    ∧ (check_instance sub objTy ci false true = .ok () ∨
       check_instance sub objTy ci false true = .error ⟨.typeError, .notInstance⟩))
  ∧ check_instance pyIsSubclass pyTyInt (.tup [pyTyInt, pyTyStr]) true true = .ok ()
  ∧ check_instance pyIsSubclass pyTyInt (.tup [pyTyInt, pyTyStr]) false true = .ok ()
  ∧ check_instance pyIsSubclass pyTyBool (.tup [pyTyInt, pyTyStr]) true true = .ok ()
  ∧ check_instance pyIsSubclass pyTyBool (.tup [pyTyInt, pyTyStr]) false true
      = .error ⟨.typeError, .notInstance⟩ := by
  refine ⟨fun sub objTy ci => ⟨?_, ?_, ?_⟩, by decide, by decide, by decide, by decide⟩
  · cases ci <;>
      simp [check_instance, ClassInfo.cands, List.any_eq_true]
  · cases ci <;> simp [check_instance, ClassInfo.cands]
  · cases ci with
    | single t =>
      by_cases h : objTy = t <;> simp [check_instance, h]
    | tup ts =>
      by_cases h : objTy ∈ ts <;> simp [check_instance, h]
    | unionHint ts =>
      by_cases h : objTy ∈ ts <;> simp [check_instance, h]

/-- C8 witness: a bool instance passes the subclass-allowing check against int. -/
theorem C8_check_instance_witness :
    check_instance pyIsSubclass pyTyBool (.single pyTyInt) true true = .ok () :=
  ((C8_check_instance.1 pyIsSubclass pyTyBool (.single pyTyInt)).1).mpr
    ⟨pyTyInt, by decide, by decide⟩

/-- C6: for an array of rank >= 1 and an integer axis, check_sorted
raises the axis-out-of-bounds ValueError exactly when the axis lies
outside [-ndim, ndim - 1]: outside that interval the out-of-bounds
ValueError is raised (the axis having first passed the number and
whole-number confirmations), and inside it the result is never the
out-of-bounds error. -/
theorem C6_axis_out_of_bounds (arr : NArr) (i : ℤ) (asc st : Bool)
    (hnd : 1 ≤ arr.shape.length) :
    ((i < -(arr.shape.length : ℤ) ∨ (arr.shape.length : ℤ) - 1 < i) →
       check_sorted arr asc st (some (.int i))
         = .error ⟨.valueError, .axisOutOfBounds⟩)
  ∧ ((-(arr.shape.length : ℤ) ≤ i ∧ i ≤ (arr.shape.length : ℤ) - 1) →
       check_sorted arr asc st (some (.int i))
         ≠ .error ⟨.valueError, .axisOutOfBounds⟩) := by
  constructor
  · intro hout
    exact check_sorted_int_axis_oob arr i asc st (by omega) hout
  · intro hin
    rcases check_sorted_int_axis_inb arr i asc st (by omega) hin with h | h <;>
      rw [h] <;> simp

/-- C6 witness: axis 5 is out of bounds for a rank-1 array. -/
theorem C6_axis_out_of_bounds_witness :
    check_sorted ⟨.float, [2], [.finite 0, .finite 1]⟩ true false (some (.int 5))
      = .error ⟨.valueError, .axisOutOfBounds⟩ :=
  (C6_axis_out_of_bounds ⟨.float, [2], [.finite 0, .finite 1]⟩ 5 true false
    (by decide)).1 (by decide)

/-- C7: along the default axis -1 on a one-dimensional array, check_sorted
succeeds exactly when every adjacent pair of elements satisfies the
comparison selected by the ascending and strict flags; in particular with
the default flags [a, b] with a <= b passes, and [b, a] with a < b fails
with the not-sorted ValueError (so it passes only when a = b). -/
theorem C7_check_sorted_adjacent_pairs :
    (∀ (dt : DType) (data : List PyFloat) (asc st : Bool),
       (check_sorted ⟨dt, [data.length], data⟩ asc st (some (.int (-1))) = .ok ()) ↔
         List.Chain' (fun x y => cmpOf asc st x y = true) data)
  ∧ (∀ a b : ℤ, a ≤ b →
       check_sorted ⟨.int, [2], [.finite (a : ℚ), .finite (b : ℚ)]⟩ true false
         (some (.int (-1))) = .ok ())
  ∧ (∀ a b : ℤ, a < b →
       check_sorted ⟨.int, [2], [.finite (b : ℚ), .finite (a : ℚ)]⟩ true false
         (some (.int (-1))) = .error ⟨.valueError, .notSorted⟩) := by
  refine ⟨check_sorted_one_dim_iff, ?_, ?_⟩
  · intro a b hab
    apply (check_sorted_one_dim_iff .int [.finite (a : ℚ), .finite (b : ℚ)] true false).mpr
    rw [List.chain'_pair]
    simp only [cmpOf, Bool.and_self, Bool.not_false, Bool.and_true, if_true, PyFloat.le,
      decide_eq_true_eq]
    exact_mod_cast hab
  · intro a b hab
    rcases check_sorted_one_dim_cases .int [.finite (b : ℚ), .finite (a : ℚ)] true false
      with h | h
    · exfalso
      have hc := (check_sorted_one_dim_iff .int [.finite (b : ℚ), .finite (a : ℚ)]
        true false).mp h
      rw [List.chain'_pair] at hc
      simp only [cmpOf, Bool.and_self, Bool.not_false, Bool.and_true, if_true, PyFloat.le,
        decide_eq_true_eq] at hc
      have : (b : ℚ) < (b : ℚ) := lt_of_le_of_lt hc (by exact_mod_cast hab)
      exact lt_irrefl _ this
    · exact h

/-- C7 witness: the pair [0, 1] passes the default sortedness check. -/
theorem C7_check_sorted_adjacent_pairs_witness :
    check_sorted ⟨.int, [2], [.finite ((0 : ℤ) : ℚ), .finite ((1 : ℤ) : ℚ)]⟩ true false
      (some (.int (-1))) = .ok () :=
  C7_check_sorted_adjacent_pairs.2.1 0 1 (by decide)

/-- C1: for well-formed candidates (which canonicalize to tuples of ints,
the invariant the data model imposes on shape descriptors), check_shape
succeeds exactly when some candidate has the same rank as the array's
shape and, position-wise, each candidate dimension either equals the
actual dimension or is the wildcard -1, and raises ValueError otherwise;
in particular shape (-1, 3) accepts exactly the rank-2 arrays whose
second dimension is 3. -/
theorem C1_check_shape_wildcard :
    (∀ (a : List Nat) (d : ShapeDescr),
      (∀ s ∈ d.candidates, ∃ t : List ℤ, _validate_shape_value s = .ok (t.map Dim.int)) →
      ((check_shape a d = .ok () ↔
         ∃ s ∈ d.candidates, ∃ t : List ℤ,
           _validate_shape_value s = .ok (t.map Dim.int) ∧
           List.Forall₂ (fun (x : Nat) (y : ℤ) => y = (x : ℤ) ∨ y = -1) a t)
       ∧ ((¬ ∃ s ∈ d.candidates, ∃ t : List ℤ,
           _validate_shape_value s = .ok (t.map Dim.int) ∧
           List.Forall₂ (fun (x : Nat) (y : ℤ) => y = (x : ℤ) ∨ y = -1) a t) →
          check_shape a d = .error ⟨.valueError, .badShape⟩)))
  ∧ (∀ n m : Nat,
      (check_shape [n, m] (.single (.tup [.int (-1), .int 3])) = .ok ()) ↔ m = 3)
  ∧ (∀ b : List Nat, b.length ≠ 2 →
      check_shape b (.single (.tup [.int (-1), .int 3]))
        = .error ⟨.valueError, .badShape⟩)
  ∧ (∀ n m : Nat, m ≠ 3 →
      check_shape [n, m] (.single (.tup [.int (-1), .int 3]))
        = .error ⟨.valueError, .badShape⟩) := by
  have hval : _validate_shape_value (.tup (List.map Dim.int [-1, 3]))
      = .ok (List.map Dim.int [-1, 3]) := by decide
  have hallow : ∀ n m : Nat,
      (_shape_is_allowed [n, m] (List.map Dim.int [-1, 3]) = true) ↔ m = 3 := by
    intro n m
    rw [shape_allowed_iff]
    simp [List.forall₂_cons]
    omega
  refine ⟨?_, ?_, ?_, ?_⟩
  · intro a d hv
    have hv' : ∀ s ∈ d.candidates, ∃ v, _validate_shape_value s = .ok v := by
      intro s hs
      obtain ⟨t, ht⟩ := hv s hs
      exact ⟨t.map Dim.int, ht⟩
    obtain ⟨hiff, herr⟩ := check_shape_loop_char a d.candidates hv'
    constructor
    · rw [show check_shape a d = check_shape_loop a d.candidates from rfl, hiff]
      constructor
      · rintro ⟨s, hs, v, hvs, hall⟩
        obtain ⟨t, ht⟩ := hv s hs
        rw [ht] at hvs
        cases hvs
        exact ⟨s, hs, t, ht, (shape_allowed_iff a t).mp hall⟩
      · rintro ⟨s, hs, t, ht, hf⟩
        exact ⟨s, hs, t.map Dim.int, ht, (shape_allowed_iff a t).mpr hf⟩
    · intro hno
      apply herr
      rintro ⟨s, hs, v, hvs, hall⟩
      obtain ⟨t, ht⟩ := hv s hs
      rw [ht] at hvs
      cases hvs
      exact hno ⟨s, hs, t, ht, (shape_allowed_iff a t).mp hall⟩
  · intro n m
    show (check_shape_loop [n, m] [.tup (List.map Dim.int [-1, 3])] = .ok ()) ↔ m = 3
    simp only [check_shape_loop, hval]
    by_cases h : m = 3
    · rw [if_pos ((hallow n m).mpr h)]
      simp [h]
    · rw [if_neg (fun hc => h ((hallow n m).mp hc))]
      simp [check_shape_loop, h]
  · intro b hb
    have hfalse : ¬ (_shape_is_allowed b (List.map Dim.int [-1, 3]) = true) := by
      intro hc
      have := ((shape_allowed_iff b [-1, 3]).mp hc).length_eq
      simp at this
      exact hb this
    show check_shape_loop b [.tup (List.map Dim.int [-1, 3])]
      = .error ⟨.valueError, .badShape⟩
    simp only [check_shape_loop, hval]
    rw [if_neg hfalse]
  · intro n m hm
    have hfalse : ¬ (_shape_is_allowed [n, m] (List.map Dim.int [-1, 3]) = true) :=
      fun hc => hm ((hallow n m).mp hc)
    show check_shape_loop [n, m] [.tup (List.map Dim.int [-1, 3])]
      = .error ⟨.valueError, .badShape⟩
    simp only [check_shape_loop, hval]
    rw [if_neg hfalse]

/-- C1 witness: a 4x3 array passes the (-1, 3) shape check. -/
theorem C1_check_shape_wildcard_witness :
    check_shape [4, 3] (.single (.tup [.int (-1), .int 3])) = .ok () :=
  ((C1_check_shape_wildcard.1 [4, 3] (.single (.tup [.int (-1), .int 3]))
      (fun s hs => by
        simp only [ShapeDescr.candidates, List.mem_singleton] at hs
        subst hs
        exact ⟨[-1, 3], by decide⟩)).1).mpr
    ⟨.tup [.int (-1), .int 3], by simp [ShapeDescr.candidates], [-1, 3], by decide,
      by simp [List.forall₂_cons]⟩

lemma check_greater_than_scalar (i q : ℚ) :
    check_greater_than ⟨.int, [], [.finite i]⟩ (.finite q) false
      = (if q ≤ i then .ok () else .error ⟨.valueError, .notGreaterEq⟩) := by
  by_cases h : q ≤ i <;> simp [check_greater_than, PyFloat.le, h]

lemma check_less_than_scalar (i q : ℚ) :
    check_less_than ⟨.int, [], [.finite i]⟩ (.finite q) false
      = (if i ≤ q then .ok () else .error ⟨.valueError, .notLessEq⟩) := by
  by_cases h : i ≤ q <;> simp [check_less_than, PyFloat.le, h]

lemma check_range_axis_bound (n : Nat) (i : ℤ) (hn : 1 ≤ n) :
    (check_range ⟨.int, [], [.finite (i : ℚ)]⟩
        ⟨.int, [2], [.finite (-(n : ℤ) : ℚ), .finite ((n - 1 : ℤ) : ℚ)]⟩ false false
      = .ok ()) ↔ (-(n : ℤ) ≤ i ∧ i ≤ (n : ℤ) - 1) := by
  have hshape : check_shape [2] (.single (.intv 2)) = .ok () := by decide
  have hsorted : check_sorted ⟨.int, [2], [.finite (-(n : ℤ) : ℚ), .finite ((n - 1 : ℤ) : ℚ)]⟩
      true false (some (.int (-1))) = .ok () := by
    apply (check_sorted_one_dim_iff .int [.finite (-(n : ℤ) : ℚ), .finite ((n - 1 : ℤ) : ℚ)]
      true false).mpr
    rw [List.chain'_pair]
    simp only [cmpOf, Bool.and_self, Bool.not_false, Bool.and_true, if_true, PyFloat.le,
      decide_eq_true_eq]
    exact_mod_cast (show -(n : ℤ) ≤ (n : ℤ) - 1 by omega)
  simp only [check_range, hshape, hsorted, List.getD_cons_zero, List.getD_cons_succ,
    check_greater_than_scalar, check_less_than_scalar]
  by_cases h1 : -(n : ℤ) ≤ i
  · have h1q : (-(n : ℤ) : ℚ) ≤ (i : ℚ) := by exact_mod_cast h1
    rw [if_pos h1q]
    by_cases h2 : i ≤ (n : ℤ) - 1
    · have h2q : (i : ℚ) ≤ ((n - 1 : ℤ) : ℚ) := by exact_mod_cast h2
      rw [if_pos h2q]
      simp [h1, h2]
    · have h2q : ¬ ((i : ℚ) ≤ ((n - 1 : ℤ) : ℚ)) := by
        intro hc
        exact h2 (by exact_mod_cast hc)
      rw [if_neg h2q]
      simp [h2]
  · have h1q : ¬ ((-(n : ℤ) : ℚ) ≤ (i : ℚ)) := by
      intro hc
      exact h1 (by exact_mod_cast hc)
    rw [if_neg h1q]
    simp [h1]
